import Mathlib

/-
Verification of the hotel-price scraping pipeline
(Find-Osaka-And-Japan-Average-Hotel-Price).

Shallow embedding of:
  - japan_avg_hotel_price_finder/graphql_scraper_func/graphql_data_transformer.py
    (transform_data_in_df)
  - japan_avg_hotel_price_finder/graphql_scraper_func/graphql_request_func.py
    (fetch_hotel_data)
  - japan_avg_hotel_price_finder/graphql_scraper.py
    (BasicGraphQLScraper: check_info, _check_city_data, _check_country_data,
     _check_currency_data, _check_hotel_filter_data, _find_total_page_num,
     _fetch_hotel_data, scrape_graphql)
  - japan_avg_hotel_price_finder/sql/migrate_to_sqlite.py
    (create_avg_hotel_room_price_by_date_table)
  - the listing extractor and DataFrame concatenation helpers, whose modules
    are absent from the source tree and are modelled from the specification
    and the repository's own tests.

Machine reals (Python floats / pandas float64) are modelled as rationals;
Python None / pandas NaN as Option; dict-shaped JSON as structures whose
fields are Option-typed (a missing key or a None value maps to Option.none).
Exceptions are modelled with Except.
-/

/-- Scalar value held in a pandas cell of the Price or Review column.
PyVal.nullv is Python None or pandas NaN; PyVal.num is any value that
pandas to_numeric maps to a number (this abstracts numeric literals and
numeric strings); PyVal.nonNum is any value that to_numeric with
errors coerce turns into NaN. -/
inductive PyVal where
  | nullv
  | num (q : ℚ)
  | nonNum
deriving DecidableEq

/-- Behaviour of pandas to_numeric with errors coerce on one cell:
numbers pass through, everything else becomes NaN (modelled none). -/
def toNumeric : PyVal → Option ℚ
  | .num q => some q
  | _ => Option.none

/-- One row produced by the listing extractor: Hotel, Review, Price,
Location, each nullable (graphql_data_extractor output columns). -/
structure ListingRow where
  hotel : Option String
  review : PyVal
  price : PyVal
  location : Option String
deriving DecidableEq

/-- ListingRow after transform_data_in_df stamped City, Date and AsOf
columns onto the DataFrame. -/
structure StampedRow extends ListingRow where
  city : String
  date : String
  asOf : String
deriving DecidableEq

/-- StampedRow after the Price and Review columns were replaced by
pd.to_numeric with errors coerce (numbers, or none for NaN). -/
structure CoercedRow where
  hotel : Option String
  priceN : Option ℚ
  reviewN : Option ℚ
  location : Option String
  city : String
  date : String
  asOf : String
deriving DecidableEq

/-- Row surviving dropna on Hotel, Review, Price: those three columns are
known non-null, Location may still be null. -/
structure DroppedRow where
  hotel : String
  price : ℚ
  review : ℚ
  location : Option String
  city : String
  date : String
  asOf : String
deriving DecidableEq

/-- Final assembled HotelTable row, with the derived Price divided by
Review column. -/
structure FinalRow where
  hotel : String
  price : ℚ
  review : ℚ
  location : Option String
  priceOverReview : ℚ
  city : String
  date : String
  asOf : String
deriving DecidableEq

/-- Stamping step of transform_data_in_df: City := city, Date := check_in,
AsOf := retrieval timestamp (passed in as a parameter here, the code reads
the wall clock). -/
def stampOne (check_in city asOf : String) (r : ListingRow) : StampedRow :=
  { toListingRow := r, city := city, date := check_in, asOf := asOf }

def stampRows (check_in city asOf : String) (df : List ListingRow) : List StampedRow :=
  df.map (stampOne check_in city asOf)

/-- drop_duplicates with subset Hotel, keep first (the pandas default):
a row is dropped when an earlier row had the same Hotel value (pandas
treats NaN keys as equal to each other, hence the Option String key). -/
def dropDuplicatesByHotel : List StampedRow → List (Option String) → List StampedRow
  | [], _ => []
  | r :: rs, seen =>
    if r.hotel ∈ seen then dropDuplicatesByHotel rs seen
    else r :: dropDuplicatesByHotel rs (r.hotel :: seen)

/-- Numeric coercion step: Price and Review columns through to_numeric. -/
def coerceNumeric (r : StampedRow) : CoercedRow :=
  { hotel := r.hotel, priceN := toNumeric r.price, reviewN := toNumeric r.review,
    location := r.location, city := r.city, date := r.date, asOf := r.asOf }

/-- dropna with subset Hotel, Review, Price: keep exactly the rows where
those three are non-null. -/
def dropNaRows (rows : List CoercedRow) : List DroppedRow :=
  rows.filterMap (fun r =>
    match r.hotel, r.reviewN, r.priceN with
    | some h, some rv, some p =>
      some { hotel := h, price := p, review := rv, location := r.location,
             city := r.city, date := r.date, asOf := r.asOf }
    | _, _, _ => Option.none)

/-- Derived column step: Price divided by Review. -/
def addPriceOverReview (r : DroppedRow) : FinalRow :=
  { hotel := r.hotel, price := r.price, review := r.review, location := r.location,
    priceOverReview := r.price / r.review,
    city := r.city, date := r.date, asOf := r.asOf }

/-- Result of transform_data_in_df: the empty input DataFrame is returned
unchanged (no columns stamped), a non-empty one comes back transformed. -/
inductive TransformResult where
  | unchanged (df : List ListingRow)
  | transformed (rows : List FinalRow)
deriving DecidableEq

/-- transform_data_in_df from graphql_data_transformer.py: stamp City,
Date, AsOf; drop duplicate Hotels keeping the first; coerce Price and
Review to numeric; drop rows with null Hotel, Review or Price; drop rows
with Price 0 or Review 0; derive Price divided by Review. The empty
DataFrame is returned unchanged. -/
def transform_data_in_df (check_in city asOf : String) (df : List ListingRow) :
    TransformResult :=
  if df.isEmpty then .unchanged df
  else
    let stamped := stampRows check_in city asOf df
    let deduped := dropDuplicatesByHotel stamped []
    let coerced := deduped.map coerceNumeric
    let dropped := dropNaRows coerced
    let nonzero := dropped.filter (fun r => decide (r.price ≠ 0) && decide (r.review ≠ 0))
    .transformed (nonzero.map addPriceOverReview)

/-- Nested finalPrice object of one block in a provider result: amount (a
cell, possibly null or malformed) and currency (none when the currency key
is absent, which makes the currency check raise KeyError). -/
structure FinalPriceJ where
  amount : PyVal
  currency : Option String
deriving DecidableEq

/-- One entry of the blocks array of a provider result; finalPrice is none
when the block has no finalPrice key. -/
structure BlockJ where
  finalPrice : Option FinalPriceJ
deriving DecidableEq

/-- displayName object of a raw listing. -/
structure NameJ where
  text : Option String
deriving DecidableEq

/-- reviewScore object nested in basicPropertyData. -/
structure ScoreJ where
  score : PyVal
deriving DecidableEq

/-- basicPropertyData object of a raw listing. -/
structure PropJ where
  reviewScore : Option ScoreJ
deriving DecidableEq

/-- location object of a raw listing. -/
structure LocJ where
  displayLocation : Option String
deriving DecidableEq

/-- One raw listing of the results array as returned by the provider.
Every nested node is optional; an Option.none stands for a missing key or
an explicit null value (the two are not distinguished here). -/
structure RawListing where
  displayName : Option NameJ
  basicPropertyData : Option PropJ
  blocks : Option (List BlockJ)
  location : Option LocJ
deriving DecidableEq

/-- Modelled from the spec: the listing extractor module
(graphql_scraper_func/graphql_data_extractor.py) is absent from the source
tree. Field extraction follows section 4.5 of the spec: Hotel is the
nested display-name text or null, Review the nested review score or null,
Price the first block's nested final-price amount or null, Location the
nested display-location or null; missing intermediate nodes degrade the
field to null. -/
def extractRow (l : RawListing) : ListingRow :=
  { hotel := l.displayName.bind (fun n => n.text),
    review := ((l.basicPropertyData.bind (fun p => p.reviewScore)).map
      (fun s => s.score)).getD .nullv,
    price := (((l.blocks.bind (fun bs => bs.head?)).bind
      (fun b => b.finalPrice)).map (fun fp => fp.amount)).getD .nullv,
    location := l.location.bind (fun lo => lo.displayLocation) }

/-- Modelled from the spec: extract_hotel_data of the absent
graphql_data_extractor.py module, which mutates the accumulator df_list
(modelled by returning the extended list). The batching granularity is the
one pinned by the repository's own tests
(src/tests/test_basic_graphql_scraper/test_extract_data.py): each raw
listing is turned into its own single-row DataFrame which is appended to
df_list, so a call with N listings appends N one-row batches and a call
with an empty listing list appends nothing. -/
def extract_hotel_data (dfList : List (List ListingRow)) (hotelDataList : List RawListing) :
    List (List ListingRow) :=
  dfList ++ hotelDataList.map (fun l => [extractRow l])

/-- Modelled from the spec: concat_df_list of the absent
graphql_utils_func.py module; concatenates all batches into one table
ordered by batch arrival then intra-batch order (section 4.6 step 1). -/
def concat_df_list (dfList : List (List ListingRow)) : List ListingRow :=
  dfList.flatten

/-- Decoded body of one per-page HTTP response, abstracted to what
fetch_hotel_data observes: undecodable bodies make response.json() raise,
decodable ones either contain the nested
data.searchQueries.search.results path (with its listing array) or not. -/
inductive HttpBody where
  | undecodable
  | decoded (results : Option (List RawListing))
deriving DecidableEq

/-- One per-page HTTP response: status code and body. -/
structure HttpResponse where
  status : Nat
  body : HttpBody
deriving DecidableEq

/-- Failure modes of the pipeline: KeyError escaping a validator helper,
the fatal SystemExit of check_info (tagged with the mismatching key), and
a JSON decode or content-type error escaping response.json(). -/
inductive ScrapeError where
  | keyError
  | systemExit (key : String)
  | decodeError
deriving DecidableEq

/-- fetch_hotel_data from graphql_request_func.py. On a non-200 status it
logs and returns an empty list. On a 200 status it first decodes the body
with response.json(): that call sits outside the try block, so a decode
failure propagates to the caller. Only the subsequent nested-path access
is guarded (except ValueError, KeyError and a catch-all except), so a
decoded body lacking the path yields an empty list. -/
def fetch_hotel_data (resp : HttpResponse) : Except ScrapeError (List RawListing) :=
  if resp.status = 200 then
    match resp.body with
    | .undecodable => .error .decodeError
    | .decoded r => .ok (r.getD [])
  else .ok []

/-- Requested search parameters held by BasicGraphQLScraper
(graphql_scraper.py); the url, headers and data attributes are threaded
explicitly through the functions below instead. -/
structure BasicGraphQLScraper where
  city : String
  country : String
  check_in : String
  check_out : String
  group_adults : Int
  num_rooms : Int
  group_children : Int
  selected_currency : String
  scrape_only_hotel : Bool
deriving DecidableEq

/-- Modelled from the spec: the BookingDetails data model
(japan_avg_hotel_price_finder/booking_details.py) is absent from the
source tree; its fields are exactly the ones check_info constructs and
compares (the ResponseMeta of spec section 3). -/
structure BookingDetails where
  city : String
  country : String
  check_in : String
  check_out : String
  group_adults : Int
  group_children : Int
  num_rooms : Int
  selected_currency : String
  scrape_only_hotel : Bool
deriving DecidableEq

/-- Page-0 response body as observed by check_info and its helpers, under
the nested data.searchQueries.search object. Option.none on a field means
the corresponding key path is missing (or holds None). breadcrumbs holds
each breadcrumb's name (itself nullable); appliedFilterOptions holds each
option's urlId when present; flexCheckin and flexCheckout are the first
elements of the flexibleDatesConfig.dateRangeCalendar arrays; nbAdults,
nbChildren and nbRooms come from searchMeta. -/
structure SearchResp where
  results : Option (List RawListing)
  breadcrumbs : Option (List (Option String))
  nbResultsTotal : Option Int
  appliedFilterOptions : Option (List (Option String))
  flexCheckin : Option String
  flexCheckout : Option String
  nbAdults : Option Int
  nbChildren : Option Int
  nbRooms : Option Int
deriving DecidableEq

/-- Python str.lower(), written over the character list (the standard
library's String.toLower is not kernel-reducible; the breadcrumb names
compared here are plain ASCII, where the two agree). -/
def strLower (s : String) : String :=
  String.mk (s.data.map Char.toLower)

/-- Dict access that raises KeyError when the key path is absent. -/
def getKey {α : Type} (o : Option α) : Except ScrapeError α :=
  match o with
  | some v => .ok v
  | Option.none => .error .keyError

/-- BasicGraphQLScraper._check_city_data: scan breadcrumbs in order,
skipping entries whose name is None, and return the first name equal to
the requested city case-insensitively; with no match the sentinel
Not Match; with the breadcrumbs path absent a KeyError. -/
def check_city_data (s : BasicGraphQLScraper) (resp : SearchResp) :
    Except ScrapeError String :=
  match resp.breadcrumbs with
  | Option.none => .error .keyError
  | some bs =>
    .ok ((((bs.filterMap id).find? (fun n => strLower n == strLower s.city)).getD "Not Match"))

/-- BasicGraphQLScraper._check_country_data: same scan as the city check
but against the requested country, defaulting to the empty string. -/
def check_country_data (s : BasicGraphQLScraper) (resp : SearchResp) :
    Except ScrapeError String :=
  match resp.breadcrumbs with
  | Option.none => .error .keyError
  | some bs =>
    .ok ((((bs.filterMap id).find? (fun n => strLower n == strLower s.country)).getD ""))

/-- One outer-loop step of BasicGraphQLScraper._check_currency_data: when
the result has a blocks array, the inner loop breaks at the first block
carrying a finalPrice and overwrites the accumulator with that block's
currency; a finalPrice without a currency key raises KeyError. The break
leaves only the inner loop, so the outer loop keeps scanning later
results. -/
def currencyStep (acc : Option String) (r : RawListing) :
    Except ScrapeError (Option String) :=
  match r.blocks with
  | Option.none => .ok acc
  | some blocks =>
    match blocks.find? (fun b => b.finalPrice.isSome) with
    | Option.none => .ok acc
    | some b =>
      match b.finalPrice with
      | some fp =>
        match fp.currency with
        | some c => .ok (some c)
        | Option.none => .error .keyError
      | Option.none => .ok acc

/-- BasicGraphQLScraper._check_currency_data: fold currencyStep over the
results array starting from None; an absent results path raises
KeyError. -/
def check_currency_data (resp : SearchResp) : Except ScrapeError (Option String) :=
  match resp.results with
  | Option.none => .error .keyError
  | some rs => rs.foldlM currencyStep Option.none

/-- BasicGraphQLScraper._check_hotel_filter_data: true iff some applied
filter option carries urlId equal to the hotel sentinel; a missing path is
caught and yields false. -/
def check_hotel_filter_data (resp : SearchResp) : Bool :=
  match resp.appliedFilterOptions with
  | Option.none => false
  | some opts => opts.any (fun u => u == some "ht_id=204")

/-- BasicGraphQLScraper._find_total_page_num: the nested
pagination.nbResultsTotal value, with 0 on a missing path (TypeError and
KeyError are caught). -/
def find_total_page_num (resp : SearchResp) : Int :=
  resp.nbResultsTotal.getD 0

/-- BookingDetails construction inside check_info: echoed city, country,
currency (defaulted to USD with a warning when no block-level price was
found) and hotel filter from the helper methods, echoed dates from
flexibleDatesConfig and occupancy from searchMeta by direct dict access
(KeyError propagates). -/
def compute_booking_details (s : BasicGraphQLScraper) (resp : SearchResp) :
    Except ScrapeError BookingDetails := do
  let city_data ← check_city_data s resp
  let country_data ← check_country_data s resp
  let currency_data ← check_currency_data resp
  let hotel_filter := check_hotel_filter_data resp
  let ci ← getKey resp.flexCheckin
  let co ← getKey resp.flexCheckout
  let ga ← getKey resp.nbAdults
  let gc ← getKey resp.nbChildren
  let nr ← getKey resp.nbRooms
  .ok { city := city_data, country := country_data, check_in := ci, check_out := co,
        group_adults := ga, group_children := gc, num_rooms := nr,
        selected_currency := currency_data.getD "USD",
        scrape_only_hotel := hotel_filter }

/-- Echoed-versus-requested comparison loop of check_info, in the order of
keys_to_check; returns the first mismatching key, if any. -/
def firstMismatch (s : BasicGraphQLScraper) (bd : BookingDetails) : Option String :=
  if bd.city ≠ s.city then some "city"
  else if bd.country ≠ s.country then some "country"
  else if bd.check_in ≠ s.check_in then some "check_in"
  else if bd.check_out ≠ s.check_out then some "check_out"
  else if bd.group_adults ≠ s.group_adults then some "group_adults"
  else if bd.group_children ≠ s.group_children then some "group_children"
  else if bd.num_rooms ≠ s.num_rooms then some "num_rooms"
  else if bd.selected_currency ≠ s.selected_currency then some "selected_currency"
  else if bd.scrape_only_hotel ≠ s.scrape_only_hotel then some "scrape_only_hotel"
  else Option.none

/-- BasicGraphQLScraper.check_info: with a truthy total result count,
build the echoed BookingDetails and raise SystemExit on the first
mismatching key, otherwise return the total; with a falsy total return 0
without any cross-check. -/
def check_info (s : BasicGraphQLScraper) (resp : SearchResp) : Except ScrapeError Int :=
  let total := find_total_page_num resp
  if total ≠ 0 then do
    let bd ← compute_booking_details s resp
    match firstMismatch s bd with
    | some k => .error (.systemExit k)
    | Option.none => .ok total
  else .ok 0

/-- Offsets produced by range with start cur, the given stop and step 100
(helper for the pagination fan-out). -/
def pageOffsetsFrom (cur total : Nat) : List Nat :=
  if cur < total then cur :: pageOffsetsFrom (cur + 100) total else []
termination_by total - cur

/-- Offsets of the page fan-out of BasicGraphQLScraper._fetch_hotel_data:
range from 0 below the total result count in steps of 100. -/
def pageOffsets (total : Nat) : List Nat :=
  pageOffsetsFrom 0 total

/-- BasicGraphQLScraper._fetch_hotel_data: one fetch_hotel_data task per
page offset, jointly awaited; an exception in any task propagates out of
the joint await (gather), modelled by the monadic map over Except. The
http argument stands for the provider: the response each offset's request
would receive. -/
def fetchHotelPages (http : Nat → HttpResponse) (total : Int) :
    Except ScrapeError (List (List RawListing)) :=
  (pageOffsets total.toNat).mapM (fun off => fetch_hotel_data (http off))

/-- BasicGraphQLScraper._scrape_data_from_endpoint (extraction half): run
the listing extractor on each page's raw listings, skipping pages that
returned empty. -/
def scrape_data_from_endpoint (results : List (List RawListing)) :
    List (List ListingRow) :=
  results.foldl (fun acc l => if l.isEmpty then acc else extract_hotel_data acc l) []

/-- BasicGraphQLScraper._validate_inputs: city, check_in, check_out and
selected_currency must all be truthy (non-empty strings). -/
def validate_inputs (s : BasicGraphQLScraper) : Bool :=
  !s.city.isEmpty && !s.check_in.isEmpty && !s.check_out.isEmpty &&
    !s.selected_currency.isEmpty

/-- DataFrame returned by BasicGraphQLScraper.scrape_graphql: one of the
early empty-DataFrame returns, or the result of table assembly. -/
inductive ScrapeOutput where
  | emptyDF
  | table (t : TransformResult)
deriving DecidableEq

/-- BasicGraphQLScraper.scrape_graphql: validate inputs (else empty
DataFrame), run check_info on the page-0 response (fatal errors
propagate), return an empty DataFrame on a zero total, otherwise fan out
over all pages, extract per-page batches and assemble the table; when
every page came back empty return an empty DataFrame. The page-0 request
itself is the page0 argument; asOf is the retrieval timestamp. -/
def scrape_graphql (s : BasicGraphQLScraper) (asOf : String) (page0 : SearchResp)
    (http : Nat → HttpResponse) : Except ScrapeError ScrapeOutput :=
  if ¬ validate_inputs s then .ok .emptyDF
  else do
    let total ← check_info s page0
    if total = 0 then .ok .emptyDF
    else do
      let results ← fetchHotelPages http total
      let dfList := scrape_data_from_endpoint results
      if dfList.isEmpty then .ok .emptyDF
      else .ok (.table (transform_data_in_df s.check_in s.city asOf (concat_df_list dfList)))

/-- One stored HotelPrice row, restricted to the columns the by-date
aggregate query reads: Date, Price, Review and City. -/
structure HotelPriceRow where
  date : String
  price : ℚ
  review : ℚ
  city : String
deriving DecidableEq

/-- Stable insertion of a row into a price-ordered list (rows with equal
Price keep their relative order); helper for the ORDER BY Price of the
window. -/
def insertByPrice (r : HotelPriceRow) : List HotelPriceRow → List HotelPriceRow
  | [] => [r]
  | s :: ss => if r.price < s.price then r :: s :: ss else s :: insertByPrice r ss

/-- Stable sort of a partition by Price (the ORDER BY of the NTILE
window; SQLite leaves ties in an unspecified order, stable order is one
admissible choice). -/
def sortByPrice : List HotelPriceRow → List HotelPriceRow
  | [] => []
  | r :: rs => insertByPrice r (sortByPrice rs)

/-- First occurrences of the values of a list, in order of appearance
(the distinct group and partition keys). -/
def firstOccurrences {α : Type} [DecidableEq α] : List α → List α → List α
  | [], _ => []
  | x :: xs, seen =>
    if x ∈ seen then firstOccurrences xs seen
    else x :: firstOccurrences xs (x :: seen)

/-- NTILE(k) bucket (1-based) of the row at 0-based position idx in a
partition of n rows: SQLite splits the partition into k groups as evenly
as possible with the larger groups first, so the first n mod k groups
have n / k + 1 rows and the rest n / k rows. -/
def ntileBucket (n k idx : Nat) : Nat :=
  let q := n / k
  let r := n % k
  if idx < r * (q + 1) then idx / (q + 1) + 1
  else r + (idx - r * (q + 1)) / q + 1

/-- Inner SELECT of create_avg_hotel_room_price_by_date_table: every
HotelPrice row paired with NTILE(4) OVER (PARTITION BY Review ORDER BY
Price). Partitions are emitted grouped by their Review key; the later
filter and GROUP BY do not depend on this row order within a date. -/
def quartileByReview (rows : List HotelPriceRow) : List (HotelPriceRow × Nat) :=
  (firstOccurrences (rows.map (fun r => r.review)) []).flatMap (fun v =>
    let part := sortByPrice (rows.filter (fun r => r.review = v))
    part.enum.map (fun p => (p.2, ntileBucket part.length 4 p.1)))

/-- One output row of the AverageRoomPriceByDateTable insert. -/
structure AvgByDateRow where
  date : String
  averagePrice : ℚ
  city : String
deriving DecidableEq

/-- create_avg_hotel_room_price_by_date_table insert query
(migrate_to_sqlite.py): tag rows with NTILE(4) OVER (PARTITION BY Review
ORDER BY Price), keep quartiles 2 and 3, group by Date and average Price;
the bare City column takes the value of some row of the group (the first
here, SQLite leaves the choice unspecified). -/
def avg_hotel_room_price_by_date (rows : List HotelPriceRow) : List AvgByDateRow :=
  let kept := ((quartileByReview rows).filter
    (fun p => p.2 = 2 ∨ p.2 = 3)).map (fun p => p.1)
  (firstOccurrences (kept.map (fun r => r.date)) []).map (fun d =>
    let g := kept.filter (fun r => r.date = d)
    { date := d, averagePrice := (g.map (fun r => r.price)).sum / (g.length : ℚ),
      city := (g.head?.map (fun r => r.city)).getD "" })

/-- Currency selection as the spec words it: the currency of the first
block-level finalPrice object found by scanning the results array in
order (blocks in order within each result). Reference definition used to
compare the implementation against the specification sentence. -/
def specFirstBlockCurrency (rs : List RawListing) : Option String :=
  (rs.findSome? (fun r => (r.blocks.getD []).findSome? (fun b => b.finalPrice))).bind
    (fun fp => fp.currency)

/-- Concrete search request used by the witness theorems (the end-to-end
scenario of spec section 8). -/
def reqOsaka : BasicGraphQLScraper :=
  { city := "Osaka", country := "Japan", check_in := "2024-07-05",
    check_out := "2024-07-06", group_adults := 1, num_rooms := 1,
    group_children := 0, selected_currency := "USD", scrape_only_hotel := true }

/-- Concrete provider returning a failing status on every page (used
where the page contents are irrelevant). -/
def httpDown : Nat → HttpResponse :=
  fun _ => { status := 500, body := .undecodable }

/-- Result whose only block carries a finalPrice in USD. -/
def resultUSD : RawListing :=
  { displayName := Option.none, basicPropertyData := Option.none,
    blocks := some [{ finalPrice := some { amount := .num 100, currency := some "USD" } }],
    location := Option.none }

/-- Result whose only block carries a finalPrice in EUR. -/
def resultEUR : RawListing :=
  { displayName := Option.none, basicPropertyData := Option.none,
    blocks := some [{ finalPrice := some { amount := .num 90, currency := some "EUR" } }],
    location := Option.none }

/-- Page-0 response with zero total but breadcrumbs that do not echo the
requested city (witness input: mismatched echo, empty result set). -/
def respZeroTotal : SearchResp :=
  { results := some [], breadcrumbs := some [some "Tokyo"],
    nbResultsTotal := some 0, appliedFilterOptions := some [],
    flexCheckin := some "2024-07-05", flexCheckout := some "2024-07-06",
    nbAdults := some 1, nbChildren := some 0, nbRooms := some 1 }

/-- Page-0 response echoing every requested field of reqOsaka except the
currency, which comes back as EUR, with a non-zero total. -/
def respWrongCurrency : SearchResp :=
  { results := some [resultEUR], breadcrumbs := some [some "Osaka", some "Japan"],
    nbResultsTotal := some 150,
    appliedFilterOptions := some [some "ht_id=204"],
    flexCheckin := some "2024-07-05", flexCheckout := some "2024-07-06",
    nbAdults := some 1, nbChildren := some 0, nbRooms := some 1 }

/-- Page-0 response whose results hold a USD-priced result followed by an
EUR-priced one (scan-order input for the currency check). -/
def respTwoCurrencies : SearchResp :=
  { results := some [resultUSD, resultEUR], breadcrumbs := some [],
    nbResultsTotal := some 1, appliedFilterOptions := some [],
    flexCheckin := Option.none, flexCheckout := Option.none,
    nbAdults := Option.none, nbChildren := Option.none, nbRooms := Option.none }

/-- Result carrying one block without any finalPrice (a sold-out-style
entry the currency scan must skip). -/
def resultNoPrice : RawListing :=
  { displayName := Option.none, basicPropertyData := Option.none,
    blocks := some [{ finalPrice := Option.none }],
    location := Option.none }

/-- Page-0 response whose results hold a USD-priced result, an EUR-priced
one, and then a trailing price-less result: the EUR result is the last
one containing any block-level final price. -/
def respTwoCurrenciesTrail : SearchResp :=
  { results := some [resultUSD, resultEUR, resultNoPrice], breadcrumbs := some [],
    nbResultsTotal := some 1, appliedFilterOptions := some [],
    flexCheckin := Option.none, flexCheckout := Option.none,
    nbAdults := Option.none, nbChildren := Option.none, nbRooms := Option.none }

/-- Page-0 response with no block-level price anywhere but every echoed
field of reqOsaka present (currency-defaulting witness input). -/
def respNoPrice : SearchResp :=
  { results := some [], breadcrumbs := some [some "Osaka", some "Japan"],
    nbResultsTotal := some 150,
    appliedFilterOptions := some [some "ht_id=204"],
    flexCheckin := some "2024-07-05", flexCheckout := some "2024-07-06",
    nbAdults := some 1, nbChildren := some 0, nbRooms := some 1 }

/-- Raw listing Hotel A of the repository's extractor tests. -/
def listingA : RawListing :=
  { displayName := some { text := some "Hotel A" },
    basicPropertyData := some { reviewScore := some { score := .num 4.5 } },
    blocks := some [{ finalPrice := some { amount := .num 150, currency := Option.none } }],
    location := some { displayLocation := some "Osaka" } }

/-- Raw listing Hotel B of the repository's extractor tests. -/
def listingB : RawListing :=
  { displayName := some { text := some "Hotel B" },
    basicPropertyData := some { reviewScore := some { score := .num 4 } },
    blocks := some [{ finalPrice := some { amount := .num 200, currency := Option.none } }],
    location := some { displayLocation := some "Tokyo" } }

/-- Two rows sharing Hotel A: the first with a malformed Price cell, the
second with a valid numeric Price (dedup-shadowing witness input). -/
def dfShadow : List ListingRow :=
  [{ hotel := some "A", review := .num 5, price := .nonNum, location := Option.none },
   { hotel := some "A", review := .num 5, price := .num 100, location := Option.none }]

/-- dfShadow followed by a clean Hotel B row: the assembled table keeps
only the B row, none for Hotel A. -/
def dfShadowB : List ListingRow :=
  dfShadow ++
    [{ hotel := some "B", review := .num 5, price := .num 100, location := some "L" }]

/-- The single row the assembly produces from dfShadowB. -/
def finalRowB : FinalRow :=
  { hotel := "B", price := 100, review := 5, location := some "L",
    priceOverReview := 100 / 5, city := "Osaka", date := "2024-07-05",
    asOf := "ts" }

/-- One well-formed row (assembly-invariant witness input). -/
def dfGood : List ListingRow :=
  [{ hotel := some "A", review := .num 5, price := .num 100, location := some "L" }]

/-- Row the extractor derives from listingA. -/
def rowA : ListingRow :=
  { hotel := some "Hotel A", review := .num 4.5, price := .num 150,
    location := some "Osaka" }

/-- Row the extractor derives from listingB. -/
def rowB : ListingRow :=
  { hotel := some "Hotel B", review := .num 4, price := .num 200,
    location := some "Tokyo" }

/-- Echoed BookingDetails of respWrongCurrency against reqOsaka: every
field matches the request except the EUR currency. -/
def bdWrongCurrency : BookingDetails :=
  { city := "Osaka", country := "Japan", check_in := "2024-07-05",
    check_out := "2024-07-06", group_adults := 1, group_children := 0,
    num_rooms := 1, selected_currency := "EUR", scrape_only_hotel := true }

/-- Echoed BookingDetails of respNoPrice against reqOsaka: no block-level
price anywhere, so the currency defaulted to USD. -/
def bdNoPrice : BookingDetails :=
  { city := "Osaka", country := "Japan", check_in := "2024-07-05",
    check_out := "2024-07-06", group_adults := 1, group_children := 0,
    num_rooms := 1, selected_currency := "USD", scrape_only_hotel := true }

theorem except_ok_bind {ε α β : Type} (a : α) (f : α → Except ε β) :
    (Except.ok a >>= f : Except ε β) = f a := rfl

theorem except_error_bind {ε α β : Type} (e : ε) (f : α → Except ε β) :
    (Except.error e >>= f : Except ε β) = Except.error e := rfl

theorem pageOffsetsFrom_length (cur total : Nat) :
    (pageOffsetsFrom cur total).length = (total - cur + 99) / 100 := by
  rw [pageOffsetsFrom]
  split
  · have ih := pageOffsetsFrom_length (cur + 100) total
    simp only [List.length_cons, ih]
    omega
  · simp only [List.length_nil]
    omega
termination_by total - cur

theorem mem_pageOffsetsFrom (cur total o : Nat) :
    o ∈ pageOffsetsFrom cur total ↔ (cur ≤ o ∧ o < total ∧ (o - cur) % 100 = 0) := by
  rw [pageOffsetsFrom]
  split
  · have ih := mem_pageOffsetsFrom (cur + 100) total o
    rw [List.mem_cons, ih]
    omega
  · simp only [List.not_mem_nil, false_iff]
    omega
termination_by total - cur

/-- C6: the by-date aggregate tags HotelPrice rows with NTILE(4)
partitioned by Review and ordered by Price, keeps quartiles 2 and 3, and
averages Price grouped by Date. For a single date with four distinct
prices 10, 20, 30, 40 and equal Review the average is 25 (first
conjunct). The second conjunct shows the partition key is Review and not
Date: four equal-Review rows split over two dates form one ranking
cohort, so date d2 keeps only its quartile-3 row (price 30, average 30);
per-date partitioning would instead give d2 the average 40. -/
theorem avg_by_date_iqm_scenario :
    avg_hotel_room_price_by_date
      [{ date := "2024-07-05", price := 10, review := 8, city := "Osaka" },
       { date := "2024-07-05", price := 20, review := 8, city := "Osaka" },
       { date := "2024-07-05", price := 30, review := 8, city := "Osaka" },
       { date := "2024-07-05", price := 40, review := 8, city := "Osaka" }] =
      [{ date := "2024-07-05", averagePrice := 25, city := "Osaka" }] ∧
    avg_hotel_room_price_by_date
      [{ date := "d1", price := 10, review := 8, city := "Osaka" },
       { date := "d1", price := 20, review := 8, city := "Osaka" },
       { date := "d2", price := 30, review := 8, city := "Osaka" },
       { date := "d2", price := 40, review := 8, city := "Osaka" }] =
      [{ date := "d1", averagePrice := 20, city := "Osaka" },
       { date := "d2", averagePrice := 30, city := "Osaka" }] := by
  have h21 : decide ("d2" = "d1") = false := by decide
  have h12 : decide ("d1" = "d2") = false := by decide
  constructor <;>
    norm_num [avg_hotel_room_price_by_date, quartileByReview, firstOccurrences,
      sortByPrice, insertByPrice, ntileBucket, List.enum, List.enumFrom,
      List.filter, List.map, h21, h12]

/-- C2 counterexample: a success status whose body is not decodable does
NOT yield an empty list; the decode error escapes fetch_hotel_data to its
caller, because response.json() is evaluated outside the try block. -/
theorem fetch_decode_error_escapes_cex :
    fetch_hotel_data { status := 200, body := .undecodable } =
      .error .decodeError := by
  rfl

/-- C2 amended: fetch_hotel_data returns an empty list without raising on
any non-success status and on a success status whose decodable body lacks
the nested results path (and returns the listings when the path is
there); but on a success status whose body is undecodable the decode
error propagates to the caller instead of yielding an empty list. -/
theorem fetch_hotel_data_error_handling (resp : HttpResponse) :
    (resp.status ≠ 200 → fetch_hotel_data resp = .ok []) ∧
    (resp.status = 200 → resp.body = .decoded Option.none →
      fetch_hotel_data resp = .ok []) ∧
    (∀ l, resp.status = 200 → resp.body = .decoded (some l) →
      fetch_hotel_data resp = .ok l) ∧
    (resp.status = 200 → resp.body = .undecodable →
      fetch_hotel_data resp = .error .decodeError) := by
  refine ⟨fun h => ?_, fun h hb => ?_, fun l h hb => ?_, fun h hb => ?_⟩ <;>
    simp [fetch_hotel_data, *]

/-- Closed instances discharging the hypotheses of
fetch_hotel_data_error_handling at concrete responses. -/
theorem fetch_hotel_data_error_handling_witness :
    fetch_hotel_data { status := 404, body := .undecodable } = .ok [] ∧
    fetch_hotel_data { status := 200, body := .decoded Option.none } = .ok [] ∧
    fetch_hotel_data { status := 200, body := .undecodable } =
      .error .decodeError :=
  ⟨(fetch_hotel_data_error_handling _).1 (by decide),
   (fetch_hotel_data_error_handling _).2.1 rfl rfl,
   (fetch_hotel_data_error_handling _).2.2.2 rfl rfl⟩

/-- C9 counterexample: for a discovered total of 150 the fan-out issues 2
requests (offsets 0 and 100, offset 0 being fetched again), not
ceil(150 / 100) - 1 = 1 as the claim states. -/
theorem fanout_count_cex :
    (pageOffsets 150).length = 2 ∧ (150 + 99) / 100 - 1 = 1 ∧ (2 : Nat) ≠ 1 := by
  refine ⟨?_, by norm_num, by norm_num⟩
  rw [pageOffsets, pageOffsetsFrom_length]

/-- C9 amended: for every discovered total T > 0 the fan-out issues
ceil(T / 100) concurrent page requests - it re-fetches offset 0 in
addition to the earlier page-0 validation request, so the count is not
reduced by one. -/
theorem fanout_request_count (T : Nat) (h : 0 < T) :
    (pageOffsets T).length = (T + 99) / 100 := by
  rw [pageOffsets, pageOffsetsFrom_length]
  omega

/-- Closed instance discharging the hypothesis of fanout_request_count at
T = 150. -/
theorem fanout_request_count_witness :
    0 < 150 ∧ (pageOffsets 150).length = (150 + 99) / 100 :=
  ⟨by norm_num, fanout_request_count 150 (by norm_num)⟩

/-- C7: the fan-out issues page fetches exactly at the multiples of 100
strictly below the discovered total; for a total of 150 the offsets are 0
and 100, and when both fetches succeed their listing arrays are gathered
in offset order into the merged result list. -/
theorem pagination_fanout_coverage :
    (∀ T o : Nat, o ∈ pageOffsets T ↔ (o % 100 = 0 ∧ o < T)) ∧
    pageOffsets 150 = [0, 100] ∧
    (∀ (http : Nat → HttpResponse) (a b : List RawListing),
      fetch_hotel_data (http 0) = .ok a →
      fetch_hotel_data (http 100) = .ok b →
      fetchHotelPages http 150 = .ok [a, b]) := by
  have hmem : ∀ T o : Nat, o ∈ pageOffsets T ↔ (o % 100 = 0 ∧ o < T) := by
    intro T o
    rw [pageOffsets, mem_pageOffsetsFrom]
    omega
  have h150 : pageOffsets 150 = [0, 100] := by
    simp [pageOffsets, pageOffsetsFrom]
  refine ⟨hmem, h150, fun http a b h1 h2 => ?_⟩
  unfold fetchHotelPages
  rw [show ((150 : Int).toNat) = 150 from rfl, h150]
  simp only [List.mapM, List.mapM.loop, h1, h2]
  rfl

/-- Closed instance discharging the hypotheses of
pagination_fanout_coverage with a provider that fails every page (each
page degrades to an empty list). -/
theorem pagination_fanout_coverage_witness :
    fetchHotelPages httpDown 150 = .ok [[], []] :=
  pagination_fanout_coverage.2.2 httpDown [] [] (by rfl) (by rfl)

/-- C10: when the page-0 pagination path is missing or reports a zero
total, check_info returns 0 without any echoed-parameter cross-check and
the pipeline returns an empty DataFrame, even when the echoed parameters
mismatch the request. -/
theorem zero_total_skips_validation (s : BasicGraphQLScraper) (asOf : String)
    (resp : SearchResp) (http : Nat → HttpResponse)
    (h : find_total_page_num resp = 0) :
    check_info s resp = .ok 0 ∧ scrape_graphql s asOf resp http = .ok .emptyDF := by
  have hci : check_info s resp = .ok 0 := by
    simp [check_info, h]
  refine ⟨hci, ?_⟩
  by_cases hv : validate_inputs s
  · simp [scrape_graphql, hv, hci]
    rfl
  · simp [scrape_graphql, hv]

/-- Closed instance discharging the hypothesis of
zero_total_skips_validation at a response whose breadcrumbs mismatch the
request but whose total is zero. -/
theorem zero_total_skips_validation_witness :
    check_info reqOsaka respZeroTotal = .ok 0 ∧
    scrape_graphql reqOsaka "2024-07-05T00:00:00" respZeroTotal httpDown =
      .ok .emptyDF :=
  zero_total_skips_validation reqOsaka "2024-07-05T00:00:00" respZeroTotal httpDown rfl

/-- C8 counterexample: for a results array holding a USD-priced result
followed by an EUR-priced one, the implementation reports EUR, while the
first block-level finalPrice in scan order carries USD - the break leaves
only the inner blocks loop, so later results overwrite earlier ones. -/
theorem currency_last_result_wins_cex :
    check_currency_data respTwoCurrencies = .ok (some "EUR") ∧
    specFirstBlockCurrency [resultUSD, resultEUR] = some "USD" ∧
    ("EUR" : String) ≠ "USD" := by
  refine ⟨rfl, rfl, by decide⟩

theorem foldlM_currencyStep_unpriced (rs : List RawListing) (a : Option String)
    (h : ∀ r ∈ rs,
      (r.blocks.getD []).find? (fun x => x.finalPrice.isSome) = Option.none) :
    rs.foldlM currencyStep a = .ok a := by
  induction rs generalizing a with
  | nil => rfl
  | cons r rs ih =>
    have hr := h r (List.mem_cons_self _ _)
    have hstep : currencyStep a r = .ok a := by
      unfold currencyStep
      cases hbl : r.blocks with
      | none => rfl
      | some bl =>
        rw [hbl] at hr
        simp only [Option.getD_some] at hr
        simp only [hr]
    rw [List.foldlM_cons, hstep, except_ok_bind]
    exact ih a (fun r2 hr2 => h r2 (List.mem_cons_of_mem _ hr2))

/-- C8 amended: the echoed currency is the currency of the first priced
block of the LAST result that carries any block-level finalPrice - the
results after it may be price-less and are skipped without touching the
accumulator (first conjunct); when no block-level price exists in any
result the currency check yields None, which check_info defaults to USD
with a warning and not an error (second conjunct). -/
theorem check_currency_amended :
    (∀ (resp : SearchResp) (rs₁ : List RawListing) (r : RawListing)
      (rs₂ : List RawListing)
      (bl : List BlockJ) (b : BlockJ) (fp : FinalPriceJ) (c : String)
      (acc : Option String),
      resp.results = some (rs₁ ++ r :: rs₂) →
      rs₁.foldlM currencyStep Option.none = .ok acc →
      r.blocks = some bl →
      bl.find? (fun x => x.finalPrice.isSome) = some b →
      b.finalPrice = some fp → fp.currency = some c →
      (∀ r2 ∈ rs₂,
        (r2.blocks.getD []).find? (fun x => x.finalPrice.isSome) = Option.none) →
      check_currency_data resp = .ok (some c)) ∧
    (∀ (s : BasicGraphQLScraper) (resp : SearchResp) (bd : BookingDetails),
      check_currency_data resp = .ok Option.none →
      compute_booking_details s resp = .ok bd →
      bd.selected_currency = "USD") := by
  constructor
  · intro resp rs₁ r rs₂ bl b fp c acc hres hfold hbl hfind hfp hc hafter
    have hstep : currencyStep acc r = .ok (some c) := by
      simp only [currencyStep, hbl, hfind, hfp, hc]
    simp only [check_currency_data, hres]
    rw [List.foldlM_append, hfold, except_ok_bind, List.foldlM_cons, hstep,
      except_ok_bind]
    exact foldlM_currencyStep_unpriced rs₂ (some c) hafter
  · intro s resp bd hcur hbd
    cases h1 : check_city_data s resp with
    | error e =>
      simp [compute_booking_details, h1, except_error_bind] at hbd
    | ok v1 =>
      cases h2 : check_country_data s resp with
      | error e =>
        simp [compute_booking_details, h1, h2, except_ok_bind, except_error_bind] at hbd
      | ok v2 =>
        cases h3 : resp.flexCheckin with
        | none =>
          simp [compute_booking_details, h1, h2, hcur, getKey, h3,
            except_ok_bind, except_error_bind] at hbd
        | some ci =>
          cases h4 : resp.flexCheckout with
          | none =>
            simp [compute_booking_details, h1, h2, hcur, getKey, h3, h4,
              except_ok_bind, except_error_bind] at hbd
          | some co =>
            cases h5 : resp.nbAdults with
            | none =>
              simp [compute_booking_details, h1, h2, hcur, getKey, h3, h4, h5,
                except_ok_bind, except_error_bind] at hbd
            | some ga =>
              cases h6 : resp.nbChildren with
              | none =>
                simp [compute_booking_details, h1, h2, hcur, getKey, h3, h4, h5, h6,
                  except_ok_bind, except_error_bind] at hbd
              | some gc =>
                cases h7 : resp.nbRooms with
                | none =>
                  simp [compute_booking_details, h1, h2, hcur, getKey,
                    h3, h4, h5, h6, h7, except_ok_bind, except_error_bind] at hbd
                | some nr =>
                  simp only [compute_booking_details, h1, h2, hcur, getKey,
                    h3, h4, h5, h6, h7, except_ok_bind, Except.ok.injEq] at hbd
                  subst hbd
                  rfl

/-- Closed instances discharging the hypotheses of check_currency_amended
at the response whose EUR result is followed by a trailing price-less
result (last priced result wins) and at the price-free response (USD
default). -/
theorem check_currency_amended_witness :
    check_currency_data respTwoCurrenciesTrail = .ok (some "EUR") ∧
    bdNoPrice.selected_currency = "USD" :=
  ⟨check_currency_amended.1 respTwoCurrenciesTrail [resultUSD] resultEUR
      [resultNoPrice]
      [{ finalPrice := some { amount := .num 90, currency := some "EUR" } }]
      { finalPrice := some { amount := .num 90, currency := some "EUR" } }
      { amount := .num 90, currency := some "EUR" } "EUR" (some "USD")
      rfl rfl rfl rfl rfl rfl (by decide),
   check_currency_amended.2 reqOsaka respNoPrice bdNoPrice rfl (by rfl)⟩

/-- C3 counterexample: one extractor call with the two listings of the
repository's basic extractor test appends two single-row batches (as that
test asserts), not one batch containing the two rows. -/
theorem extract_per_listing_batches_cex :
    extract_hotel_data [] [listingA, listingB] = [[rowA], [rowB]] ∧
    (extract_hotel_data [] [listingA, listingB]).length ≠ 0 + 1 := by
  refine ⟨rfl, by decide⟩

/-- C3 amended: a call with an empty raw-listing list appends no batch;
a call with N listings appends exactly N new batches, one single-row
batch per listing (so N rows in total), leaving the existing batches in
place. -/
theorem extract_hotel_data_batches (dfList : List (List ListingRow))
    (ls : List RawListing) :
    (ls = [] → extract_hotel_data dfList ls = dfList) ∧
    (extract_hotel_data dfList ls).take dfList.length = dfList ∧
    (extract_hotel_data dfList ls).length = dfList.length + ls.length ∧
    ∀ batch ∈ (extract_hotel_data dfList ls).drop dfList.length,
      batch.length = 1 := by
  refine ⟨fun h => by simp [extract_hotel_data, h], ?_, ?_, ?_⟩
  · simp [extract_hotel_data, List.take_left]
  · simp [extract_hotel_data]
  · intro batch hb
    rw [extract_hotel_data, List.drop_left] at hb
    obtain ⟨l, -, rfl⟩ := List.mem_map.mp hb
    rfl

/-- Closed instances discharging the hypotheses of
extract_hotel_data_batches: an empty call appends nothing, a one-listing
call appends one single-row batch. -/
theorem extract_hotel_data_batches_witness :
    extract_hotel_data [[rowA]] [] = [[rowA]] ∧
    (extract_hotel_data [[rowA]] [listingB]).length = 1 + 1 :=
  ⟨(extract_hotel_data_batches [[rowA]] []).1 rfl,
   (extract_hotel_data_batches [[rowA]] [listingB]).2.2.1⟩

theorem firstMismatch_eq_none (s : BasicGraphQLScraper) (bd : BookingDetails)
    (h : firstMismatch s bd = Option.none) :
    bd.city = s.city ∧ bd.country = s.country ∧ bd.check_in = s.check_in ∧
    bd.check_out = s.check_out ∧ bd.group_adults = s.group_adults ∧
    bd.group_children = s.group_children ∧ bd.num_rooms = s.num_rooms ∧
    bd.selected_currency = s.selected_currency ∧
    bd.scrape_only_hotel = s.scrape_only_hotel := by
  unfold firstMismatch at h
  split_ifs at h
  simp_all

/-- C1: on a page-0 response with a non-zero total for which the echoed
BookingDetails differs from the request in any of the nine cross-checked
fields, check_info aborts with the fatal SystemExit and the whole scrape
propagates it, so no HotelTable is produced. -/
theorem check_info_mismatch_fatal (s : BasicGraphQLScraper) (asOf : String)
    (resp : SearchResp) (http : Nat → HttpResponse) (bd : BookingDetails)
    (hv : validate_inputs s = true)
    (ht : find_total_page_num resp ≠ 0)
    (hbd : compute_booking_details s resp = .ok bd)
    (hmm : bd.city ≠ s.city ∨ bd.country ≠ s.country ∨ bd.check_in ≠ s.check_in ∨
      bd.check_out ≠ s.check_out ∨ bd.group_adults ≠ s.group_adults ∨
      bd.group_children ≠ s.group_children ∨ bd.num_rooms ≠ s.num_rooms ∨
      bd.selected_currency ≠ s.selected_currency ∨
      bd.scrape_only_hotel ≠ s.scrape_only_hotel) :
    ∃ k, check_info s resp = .error (.systemExit k) ∧
      scrape_graphql s asOf resp http = .error (.systemExit k) := by
  obtain ⟨k, hk⟩ : ∃ k, firstMismatch s bd = some k := by
    cases hfm : firstMismatch s bd with
    | some k => exact ⟨k, rfl⟩
    | none =>
      have hall := firstMismatch_eq_none s bd hfm
      tauto
  have hci : check_info s resp = .error (.systemExit k) := by
    simp [check_info, ht, hbd, hk, except_ok_bind]
  refine ⟨k, hci, ?_⟩
  simp [scrape_graphql, hv, hci, except_error_bind]

/-- Closed instance discharging the hypotheses of
check_info_mismatch_fatal: the response echoes every field of the Osaka
request except the currency (EUR instead of USD). -/
theorem check_info_mismatch_fatal_witness :
    ∃ k, check_info reqOsaka respWrongCurrency = .error (.systemExit k) ∧
      scrape_graphql reqOsaka "2024-07-05T00:00:00" respWrongCurrency httpDown =
        .error (.systemExit k) :=
  check_info_mismatch_fatal reqOsaka "2024-07-05T00:00:00" respWrongCurrency
    httpDown bdWrongCurrency rfl (by decide) (by rfl) (by decide)

theorem mem_dropDuplicates_not_seen (rows : List StampedRow)
    (seen : List (Option String)) (r : StampedRow)
    (hr : r ∈ dropDuplicatesByHotel rows seen) : r.hotel ∉ seen := by
  induction rows generalizing seen with
  | nil => simp [dropDuplicatesByHotel] at hr
  | cons a rs ih =>
    rw [dropDuplicatesByHotel] at hr
    by_cases ha : a.hotel ∈ seen
    · rw [if_pos ha] at hr
      exact ih seen hr
    · rw [if_neg ha] at hr
      rcases List.mem_cons.mp hr with hra | hrr
      · subst hra
        exact ha
      · intro hs
        exact ih _ hrr (List.mem_cons_of_mem _ hs)

theorem dropDuplicates_hotels_nodup (rows : List StampedRow)
    (seen : List (Option String)) :
    ((dropDuplicatesByHotel rows seen).map (fun r => r.hotel)).Nodup := by
  induction rows generalizing seen with
  | nil => simp [dropDuplicatesByHotel]
  | cons a rs ih =>
    rw [dropDuplicatesByHotel]
    by_cases ha : a.hotel ∈ seen
    · rw [if_pos ha]
      exact ih seen
    · rw [if_neg ha]
      simp only [List.map_cons, List.nodup_cons]
      refine ⟨fun hmem => ?_, ih _⟩
      obtain ⟨z, hz, hzh⟩ := List.mem_map.mp hmem
      have hzs := mem_dropDuplicates_not_seen rs _ z hz
      rw [hzh] at hzs
      exact hzs (List.mem_cons_self _ _)

theorem mem_dropDuplicates_find (rows : List StampedRow)
    (seen : List (Option String)) (z : StampedRow) (h : String)
    (hseen : (some h : Option String) ∉ seen)
    (hz : z ∈ dropDuplicatesByHotel rows seen) (hzh : z.hotel = some h) :
    rows.find? (fun x => x.hotel == some h) = some z := by
  induction rows generalizing seen with
  | nil => simp [dropDuplicatesByHotel] at hz
  | cons a rs ih =>
    rw [dropDuplicatesByHotel] at hz
    by_cases ha : a.hotel ∈ seen
    · have hne : ¬ ((a.hotel == some h) = true) := by
        simp only [beq_iff_eq]
        intro he
        rw [he] at ha
        exact hseen ha
      rw [if_pos ha] at hz
      rw [@List.find?_cons_of_neg _ (fun x => x.hotel == some h) a rs hne]
      exact ih seen hseen hz
    · rw [if_neg ha] at hz
      rcases List.mem_cons.mp hz with hza | hzr
      · subst hza
        exact List.find?_cons_of_pos _ (by simp [hzh])
      · have hzs := mem_dropDuplicates_not_seen rs _ z hzr
        have hne : ¬ ((a.hotel == some h) = true) := by
          simp only [beq_iff_eq]
          intro he
          rw [hzh] at hzs
          rw [← he] at hzs
          exact hzs (List.mem_cons_self _ _)
        rw [@List.find?_cons_of_neg _ (fun x => x.hotel == some h) a rs hne]
        refine ih (a.hotel :: seen) (fun hmem => ?_) hzr
        rcases List.mem_cons.mp hmem with hh | hh
        · exact hne (by simp [hh.symm])
        · exact hseen hh

theorem dropNa_hotels_sublist (l : List CoercedRow) :
    ((dropNaRows l).map (fun r => (some r.hotel : Option String))).Sublist
      (l.map (fun r => r.hotel)) := by
  induction l with
  | nil => simp [dropNaRows]
  | cons a l ih =>
    rcases ha : a.hotel with _ | h <;> rcases hr : a.reviewN with _ | rv <;>
      rcases hp : a.priceN with _ | p <;>
      simp only [dropNaRows, List.filterMap_cons, ha, hr, hp, List.map_cons] <;>
      first
        | exact (ih).cons _
        | exact (ih).cons₂ _

theorem dropNa_hotels_nodup (l : List CoercedRow)
    (hl : (l.map (fun r => r.hotel)).Nodup) :
    ((dropNaRows l).map (fun r => r.hotel)).Nodup := by
  have h1 : ((dropNaRows l).map (fun r => (some r.hotel : Option String))).Nodup :=
    hl.sublist (dropNa_hotels_sublist l)
  rw [show (fun r : DroppedRow => (some r.hotel : Option String)) =
      (fun x : String => (some x : Option String)) ∘ (fun r => r.hotel) from rfl,
    ← List.map_map] at h1
  exact h1.of_map _

theorem mem_dropNaRows (l : List CoercedRow) (x : DroppedRow)
    (hx : x ∈ dropNaRows l) :
    ∃ y ∈ l, y.hotel = some x.hotel ∧ y.priceN = some x.price := by
  rw [dropNaRows] at hx
  obtain ⟨y, hy, hfy⟩ := List.mem_filterMap.mp hx
  refine ⟨y, hy, ?_⟩
  rcases ha : y.hotel with _ | h <;> rcases hr : y.reviewN with _ | rv <;>
    rcases hp : y.priceN with _ | p <;> simp only [ha, hr, hp] at hfy
  all_goals try exact Option.noConfusion hfy
  rw [Option.some.injEq] at hfy
  subst hfy
  exact ⟨rfl, rfl⟩

/-- C5: for every non-empty input, table assembly yields transformed rows
in which Hotel, Price and Review are non-null (structurally, by the
FinalRow type produced by the dropna step), Price and Review are
non-zero, the derived column equals Price divided by Review, and Hotel
values are pairwise distinct; the empty input is returned unchanged with
no columns stamped. -/
theorem transform_assembly_invariants (check_in city asOf : String)
    (df : List ListingRow) :
    transform_data_in_df check_in city asOf [] = .unchanged [] ∧
    (df ≠ [] → ∃ rows,
      transform_data_in_df check_in city asOf df = .transformed rows ∧
      (∀ r ∈ rows, r.price ≠ 0 ∧ r.review ≠ 0 ∧
        r.priceOverReview = r.price / r.review) ∧
      (rows.map (fun r => r.hotel)).Nodup) := by
  refine ⟨rfl, fun hdf => ?_⟩
  have hne : df.isEmpty = false := by
    cases df with
    | nil => exact absurd rfl hdf
    | cons a l => rfl
  have hres : transform_data_in_df check_in city asOf df =
      .transformed (((dropNaRows
          ((dropDuplicatesByHotel (stampRows check_in city asOf df) []).map
            coerceNumeric)).filter
        (fun r => decide (r.price ≠ 0) && decide (r.review ≠ 0))).map
        addPriceOverReview) := by
    unfold transform_data_in_df
    rw [hne]
    rfl
  refine ⟨_, hres, fun r hr => ?_, ?_⟩
  · obtain ⟨w, hw, rfl⟩ := List.mem_map.mp hr
    have hwf := List.of_mem_filter hw
    simp only [Bool.and_eq_true, decide_eq_true_eq] at hwf
    exact ⟨hwf.1, hwf.2, rfl⟩
  · have h0 : ((dropDuplicatesByHotel (stampRows check_in city asOf df) []).map
        (fun r => r.hotel)).Nodup := dropDuplicates_hotels_nodup _ _
    have h1 : (((dropDuplicatesByHotel (stampRows check_in city asOf df) []).map
        coerceNumeric).map (fun r => r.hotel)).Nodup := by
      rw [List.map_map]
      exact h0
    have h2 := dropNa_hotels_nodup _ h1
    have h3 : (((dropNaRows
        ((dropDuplicatesByHotel (stampRows check_in city asOf df) []).map
          coerceNumeric)).filter
        (fun r => decide (r.price ≠ 0) && decide (r.review ≠ 0))).map
        (fun r => r.hotel)).Nodup :=
      h2.sublist ((List.filter_sublist _).map _)
    rw [List.map_map]
    exact h3

/-- Closed instance discharging the hypothesis of
transform_assembly_invariants at a one-row input. -/
theorem transform_assembly_invariants_witness :
    ∃ rows,
      transform_data_in_df "2024-07-05" "Osaka" "ts" dfGood = .transformed rows ∧
      (∀ r ∈ rows, r.price ≠ 0 ∧ r.review ≠ 0 ∧
        r.priceOverReview = r.price / r.review) ∧
      (rows.map (fun r => r.hotel)).Nodup :=
  (transform_assembly_invariants "2024-07-05" "Osaka" "ts" dfGood).2 (by decide)

/-- C4: when the first row carrying a given Hotel value has a
non-numeric Price, and a later row with the same Hotel has a valid
numeric Price, the assembled table contains no row at all for that
Hotel: deduplication keeps the first occurrence before numeric coercion
and null-dropping, so the malformed duplicate shadows the well-formed
one. -/
theorem dedup_shadows_malformed (check_in city asOf : String)
    (df : List ListingRow) (h : String) (r r2 : ListingRow) (q : ℚ)
    (hfind : df.find? (fun x => x.hotel == some h) = some r)
    (hbad : toNumeric r.price = Option.none)
    (h2mem : r2 ∈ df) (h2h : r2.hotel = some h)
    (h2p : toNumeric r2.price = some q)
    (rows : List FinalRow)
    (hres : transform_data_in_df check_in city asOf df = .transformed rows) :
    ∀ x ∈ rows, x.hotel ≠ h := by
  intro x hx heq
  have hne : df.isEmpty = false := by
    cases df with
    | nil => exact absurd hfind (by simp)
    | cons a l => rfl
  have hbody : transform_data_in_df check_in city asOf df =
      .transformed (((dropNaRows
          ((dropDuplicatesByHotel (stampRows check_in city asOf df) []).map
            coerceNumeric)).filter
        (fun w => decide (w.price ≠ 0) && decide (w.review ≠ 0))).map
        addPriceOverReview) := by
    unfold transform_data_in_df
    rw [hne]
    rfl
  rw [hbody] at hres
  have hrows : rows = ((dropNaRows
      ((dropDuplicatesByHotel (stampRows check_in city asOf df) []).map
        coerceNumeric)).filter
      (fun w => decide (w.price ≠ 0) && decide (w.review ≠ 0))).map
      addPriceOverReview := by
    cases hres
    rfl
  subst hrows
  obtain ⟨w, hw, rfl⟩ := List.mem_map.mp hx
  have heq' : w.hotel = h := heq
  have hw2 := List.mem_of_mem_filter hw
  obtain ⟨y, hy, hyh, hyp⟩ := mem_dropNaRows _ _ hw2
  obtain ⟨z, hz, rfl⟩ := List.mem_map.mp hy
  have hzh : z.hotel = some h := by
    have hz2 : z.hotel = some w.hotel := hyh
    rw [heq'] at hz2
    exact hz2
  have hfz := mem_dropDuplicates_find (stampRows check_in city asOf df) [] z h
    (by simp) hz hzh
  have hmap : (stampRows check_in city asOf df).find?
      (fun x => x.hotel == some h) =
      (df.find? (fun x => x.hotel == some h)).map
        (stampOne check_in city asOf) := by
    unfold stampRows
    rw [List.find?_map]
    rfl
  rw [hmap, hfind] at hfz
  have hzr : z = stampOne check_in city asOf r := by
    cases hfz
    rfl
  have hwp : toNumeric z.price = some w.price := hyp
  rw [hzr] at hwp
  have hcontr : toNumeric r.price = some w.price := hwp
  rw [hbad] at hcontr
  exact Option.noConfusion hcontr

/-- Closed instance discharging the hypotheses of
dedup_shadows_malformed on dfShadowB: the only assembled row is the B
row, whose Hotel is not A. -/
theorem dedup_shadows_malformed_witness : finalRowB.hotel ≠ "A" :=
  dedup_shadows_malformed "2024-07-05" "Osaka" "ts" dfShadowB "A"
    { hotel := some "A", review := .num 5, price := .nonNum, location := Option.none }
    { hotel := some "A", review := .num 5, price := .num 100, location := Option.none }
    100 rfl rfl (List.Mem.tail _ (List.Mem.head _)) rfl rfl
    [finalRowB] rfl finalRowB (List.Mem.head _)
